import Mathlib

/-!
Verification development for the `cfme.utils.log` logging facility.

Each Python function of `src/cfme/utils/log.py` that the claims touch is
shallowly embedded as an executable Lean definition.  Python dictionaries are
modelled as association lists, wall-clock time as integer ticks, and fallible
code (Python exceptions) as `Option`/`Except` results.
-/

set_option autoImplicit false
set_option maxRecDepth 8000

namespace CfmeLog

/- ### String helpers modelling the Python string primitives used by the code -/

/-- A character at which Python's `str.splitlines` breaks a line
(the common cases: newline and carriage return). -/
def isLinebreak (c : Char) : Bool := c == '\n' || c == '\r'

/-- The first line of a string: `s.splitlines()[0]` for a nonempty `s`. -/
def firstLine (s : String) : String :=
  ⟨s.data.takeWhile (fun c => !isLinebreak c)⟩

/-- Scan for the first occurrence of the two-character separator `": "`;
return the remainder after it when found. -/
def afterColonSpace : List Char → Option (List Char)
  | [] => none
  | ':' :: ' ' :: rest => some rest
  | _ :: rest => afterColonSpace rest

/-- `s.split(': ', 1)[-1]`: the text after the first `": "` separator,
or the whole string when the separator does not occur. -/
def stripCategory (s : String) : String :=
  match afterColonSpace s.data with
  | some rest => ⟨rest⟩
  | none => s

/- ### WarningsDeduplicationFilter (src/cfme/utils/log.py lines 263-280) -/

/-- The normalisation `record.args[0].splitlines()[0].split(': ', 1)[-1]`
applied to the first positional argument of a warning record. -/
def normalizeWarning (s : String) : String :=
  stripCategory (firstLine s)

/-- A warnings log record: only the positional arguments matter to the
deduplication filter. -/
structure WRecord where
  args : List String
deriving DecidableEq

/-- `WarningsDeduplicationFilter.filter`.  The seen-message set is the first
component of the state.  `none` models the `IndexError` Python raises when the
record has no arguments or the first argument is the empty string
(`''.splitlines()` is empty, so indexing `[0]` fails). -/
def dedupFilter (seen : List String) (r : WRecord) : Option (Bool × List String) :=
  match r.args with
  | [] => none
  | a :: _ =>
    if a = "" then none
    else
      let m := normalizeWarning a
      if m ∈ seen then some (false, seen)
      else some (true, m :: seen)

/-- Run the deduplication filter over a stream of warning records, returning
the per-record delivery flag (`true` = allowed through) and the final
seen-message set.  A record on which the filter raises is not delivered and
leaves the set unchanged. -/
def runFlags (seen : List String) : List WRecord → List Bool × List String
  | [] => ([], seen)
  | r :: rs =>
    match dedupFilter seen r with
    | none =>
      let p := runFlags seen rs
      (false :: p.1, p.2)
    | some (b, s1) =>
      let p := runFlags s1 rs
      (b :: p.1, p.2)

/- ### format_marker (src/cfme/utils/log.py lines 145, 382-404) -/

def MARKER_LEN : Nat := 80

/-- Python `'{:m^width}'.format(p)` for a single fill character `m`:
centre `p` in a field of `width` characters, extra fill going to the right;
a string at least `width` long is returned unchanged. -/
def pyCenter (p : String) (mark : Char) (width : Nat) : String :=
  let fill := width - p.length
  let left := fill / 2
  ⟨List.replicate left mark⟩ ++ p ++ ⟨List.replicate (fill - left) mark⟩

/-- `format_marker`: pad the message with one space on each side and centre it
in a `MARKER_LEN`-wide field of `mark` characters; a message longer than
`MARKER_LEN - 2` is returned as is. -/
def format_marker (mstring : String) (mark : Char) : String :=
  if mstring.length ≤ MARKER_LEN - 2 then
    pyCenter (" " ++ mstring ++ " ") mark MARKER_LEN
  else mstring

/- ### TraceLogger / TraceLoggerAdapter (src/cfme/utils/log.py lines 154-156, 178-200) -/

/-- `logging.TRACE = 5`, the custom severity level. -/
def TRACE : Nat := 5

/-- The standard library's `logging.DEBUG = 10`. -/
def DEBUG : Nat := 10

/-- The state of a logger that matters to `trace`: its effective level. -/
structure SimpleLogger where
  effectiveLevel : Nat
deriving DecidableEq

/-- `Logger.isEnabledFor(level)`: `level >= self.getEffectiveLevel()`. -/
def isEnabledFor (lg : SimpleLogger) (lvl : Nat) : Bool :=
  decide (lg.effectiveLevel ≤ lvl)

/-- `TraceLogger.trace`: emit a TRACE record only when the level is enabled.
The formatting of the message with its arguments (`msg % args`, performed by
the logging machinery once a record is handled) is abstracted as the function
`fmt`; the result is the list of (level, formatted message) records emitted,
so an empty result means no formatting took place. -/
def traceEmit (lg : SimpleLogger) (fmt : String → List String → String)
    (msg : String) (args : List String) : List (Nat × String) :=
  if isEnabledFor lg TRACE then [(TRACE, fmt msg args)] else []

/-- `NamedLoggerAdapter.process`: inject the adapter name into the message. -/
def adapterProcess (adapterName msg : String) : String :=
  "(" ++ adapterName ++ ") " ++ msg

/-- `TraceLoggerAdapter.trace` for a `NamedLoggerAdapter`: process the message,
then delegate to the underlying logger's `trace`. -/
def adapterTrace (adapterName : String) (lg : SimpleLogger)
    (fmt : String → List String → String) (msg : String) (args : List String) :
    List (Nat × String) :=
  traceEmit lg fmt (adapterProcess adapterName msg) args

/- ### Perflog (src/cfme/utils/log.py lines 283-329) -/

/-- Log severities used by the performance logger. -/
inductive Level where
  | debug
  | info
  | warning
  | error
deriving DecidableEq

/-- `tracking_events` (a Python dict from event name to start time) together
with the sequence of (severity, message) records emitted so far.  Time is
modelled in integer ticks; Python's `%f` rendering of the elapsed float is
modelled by the decimal rendering of the integer. -/
structure PerfState where
  tracking_events : List (String × Int)
  log : List (Level × String)
deriving DecidableEq

/-- Dictionary lookup. -/
def lookupEv (d : List (String × Int)) (k : String) : Option Int :=
  match d with
  | [] => none
  | (k1, v) :: rest => if k1 = k then some v else lookupEv rest k

/-- Dictionary assignment `d[k] = v`. -/
def setEv (d : List (String × Int)) (k : String) (v : Int) : List (String × Int) :=
  match d with
  | [] => [(k, v)]
  | (k1, v1) :: rest => if k1 = k then (k, v) :: rest else (k1, v1) :: setEv rest k v

/-- Dictionary removal `d.pop(k)` (the binding for `k` is deleted). -/
def removeEv (d : List (String × Int)) (k : String) : List (String × Int) :=
  d.filter (fun kv => kv.1 ≠ k)

/-- `Perflog.start`: warn when the event is already tracked, note a debug
message otherwise, and in both cases store the current time for the name. -/
def perfStart (st : PerfState) (now : Int) (event_name : String) : PerfState :=
  if (lookupEv st.tracking_events event_name).isSome then
    { tracking_events := setEv st.tracking_events event_name now,
      log := st.log ++
        [(Level.warning, "\"" ++ event_name ++ "\" event already started, resetting start time")] }
  else
    { tracking_events := setEv st.tracking_events event_name now,
      log := st.log ++
        [(Level.debug, "\"" ++ event_name ++ "\" event tracking started")] }

/-- `Perflog.stop`: when tracked, pop the start time, log the elapsed seconds
at info severity and return them; otherwise log an error and return `none`. -/
def perfStop (st : PerfState) (now : Int) (event_name : String) :
    Option Int × PerfState :=
  match lookupEv st.tracking_events event_name with
  | some started =>
    let seconds_taken := now - started
    (some seconds_taken,
     { tracking_events := removeEv st.tracking_events event_name,
       log := st.log ++
         [(Level.info, "\"" ++ event_name ++ "\" event took " ++
           toString seconds_taken ++ " seconds")] })
  | none =>
    (none,
     { st with log := st.log ++
         [(Level.error, "\"" ++ event_name ++ "\" not being tracked, call .start first")] })

/- ### _custom_excepthook (src/cfme/utils/log.py lines 407-417, 528-529) -/

/-- Python `str.strip()`: remove leading and trailing whitespace. -/
def pyStrip (s : String) : String :=
  ⟨((s.data.dropWhile Char.isWhitespace).reverse.dropWhile Char.isWhitespace).reverse⟩

/-- One traceback frame, as produced by `traceback.extract_tb`. -/
structure Frame where
  filename : String
  lineno : Nat
  funcname : String
deriving DecidableEq

/-- The observable actions of the exception hook, in order. -/
inductive HookAction where
  | logError : String → HookAction
  | logErrorWithSource : String → String → Nat → HookAction
  | originalHook : String → String → List Frame → HookAction
deriving DecidableEq

/-- `_custom_excepthook`: log the exception type name at error severity, log
the formatted traceback text at error severity with the source-location
override set to the last frame, then call the previously installed hook with
the same arguments.  `fmtFrame` abstracts `traceback.format_tb`'s per-frame
rendering; `none` models the `IndexError` on an empty traceback. -/
def _custom_excepthook (typeName excValue : String) (tb : List Frame)
    (fmtFrame : Frame → String) : Option (List HookAction) :=
  match tb.getLast? with
  | none => none
  | some lastFrame =>
    some [HookAction.logError ("Unhandled " ++ typeName),
          HookAction.logErrorWithSource (pyStrip (String.join (tb.map fmtFrame)))
            lastFrame.filename lastFrame.lineno,
          HookAction.originalHook typeName excValue tb]

/- ### _RelpathFilter and the file-handler format (src/cfme/utils/log.py lines 239-251, 332-340) -/

/-- A log record: built-in call-site attributes plus the two documented
override extras (`extra={'source_file': ..., 'source_lineno': ...}`
attaches them as record attributes). -/
structure LogRecord where
  pathname : String
  lineno : Nat
  source_file : Option String
  source_lineno : Option Nat
  msg : String
deriving DecidableEq

/-- Drop a leading occurrence of the first list from the second, or fail. -/
def dropLeading : List Char → List Char → Option (List Char)
  | [], rest => some rest
  | _ :: _, [] => none
  | p :: ps, c :: cs => if c = p then dropLeading ps cs else none

/-- Modelled from the spec: `get_rel_path` from `cfme.utils.path` (not in the
excerpt) rewrites a path to be relative to the project root when possible and
falls back to the absolute path otherwise. -/
def get_rel_path (root s : String) : String :=
  match dropLeading (root ++ "/").data s.data with
  | some rest => ⟨rest⟩
  | none => s

/-- `_RelpathFilter.filter`: the record's `pathname` is relativised;
no other attribute is touched. -/
def relpathFilter (root : String) (r : LogRecord) : LogRecord :=
  { r with pathname := get_rel_path root r.pathname }

/-- The source-location suffix of the format hard-coded in
`make_file_handler`: `(%(pathname)s:%(lineno)s)`. -/
def renderSourceSuffix (r : LogRecord) : String :=
  "(" ++ r.pathname ++ ":" ++ toString r.lineno ++ ")"

/-- The suffix actually rendered for a record emitted through a configured
logger: the relpath filter runs, then the handler's formatter renders. -/
def renderedSuffix (root : String) (r : LogRecord) : String :=
  renderSourceSuffix (relpathFilter root r)

/- ### make_file_handler's file destination (src/cfme/utils/log.py lines 332-340) -/

/-- The log file (list of written records) and its numbered backup files
(most recent first). -/
structure FileSinkState where
  contents : List String
  backups : List (List String)
deriving DecidableEq

/-- The write behaviour of the handler `make_file_handler` constructs: a plain
`logging.FileHandler`, which appends every record and never rotates.
`make_file_handler` reads no rotation configuration, so the two configuration
values are ignored. -/
def fileHandlerEmit (_max_logfile_size _max_logfile_backups : Nat)
    (st : FileSinkState) (msg : String) : FileSinkState :=
  { st with contents := st.contents ++ [msg] }

/-- Total size of a file, in characters. -/
def fileSize (c : List String) : Nat := (c.map String.length).sum

/-- Modelled from the spec: the size-capped rotating write the spec requires of
the file handler — when the threshold is positive and a write would exceed it,
the current file becomes backup 1, older backups shift up, backups beyond
`max_logfile_backups` are deleted oldest-first, and a zero threshold disables
rotation entirely. -/
def rotatingEmit (max_logfile_size max_logfile_backups : Nat)
    (st : FileSinkState) (msg : String) : FileSinkState :=
  if max_logfile_size = 0 then
    { st with contents := st.contents ++ [msg] }
  else if fileSize st.contents + msg.length > max_logfile_size ∧ st.contents ≠ [] then
    { contents := [msg],
      backups := (st.contents :: st.backups).take max_logfile_backups }
  else
    { st with contents := st.contents ++ [msg] }

/- ### _load_conf (src/cfme/utils/log.py lines 148-152, 219-236) -/

/-- A configuration value: a string, a boolean, or a nested mapping. -/
inductive CVal where
  | str : String → CVal
  | bool : Bool → CVal
  | dict : List (String × CVal) → CVal

/-- Dictionary lookup (first binding wins; reachable dictionaries have unique
keys). -/
def lookupKey (d : List (String × CVal)) (k : String) : Option CVal :=
  match d with
  | [] => none
  | (k1, v) :: rest => if k1 = k then some v else lookupKey rest k

/-- Dictionary assignment `d[k] = v`. -/
def setKey (d : List (String × CVal)) (k : String) (v : CVal) :
    List (String × CVal) :=
  match d with
  | [] => [(k, v)]
  | (k1, v1) :: rest => if k1 = k then (k, v) :: rest else (k1, v1) :: setKey rest k v

/-- Python `base.update(patch)`: assign each binding of `patch` in order. -/
def updateDict (base patch : List (String × CVal)) : List (String × CVal) :=
  patch.foldl (fun acc kv => setKey acc kv.1 kv.2) base

/-- The last binding of a key in a list of bindings (what survives a
left-to-right sequence of assignments). -/
def lookupLast (d : List (String × CVal)) (k : String) : Option CVal :=
  match d with
  | [] => none
  | (k1, v) :: rest =>
    match lookupLast rest k with
    | some w => some w
    | none => if k1 = k then some v else none

/-- The hard-coded logging defaults. -/
def _default_conf : List (String × CVal) :=
  [("level", CVal.str "INFO"),
   ("errors_to_console", CVal.bool false),
   ("to_console", CVal.bool false)]

/-- `conf.env.get('logging', {})` followed by `dict.update`'s demand that its
argument be a mapping: a missing environment or missing key yields the empty
mapping, a non-mapping value makes the later `update` raise. -/
def getLoggingSection (env : Option (List (String × CVal))) :
    Except String (List (String × CVal)) :=
  match env with
  | none => Except.ok []
  | some e =>
    match lookupKey e "logging" with
    | none => Except.ok []
    | some (CVal.dict d) => Except.ok d
    | some _ => Except.error "dictionary update sequence: ValueError"

/-- `_load_conf`: copy the defaults, overlay the global `logging` section,
then — when the logger name is a key of the merged mapping — overlay that
entry.  Overlaying a non-mapping entry raises (`Except.error`), exactly the
"rift in space-time" the module docstring warns about. -/
def _load_conf (env : Option (List (String × CVal))) (logger_name : Option String) :
    Except String (List (String × CVal)) := do
  let yaml_conf ← getLoggingSection env
  let logging_conf := updateDict _default_conf yaml_conf
  match logger_name with
  | none => return logging_conf
  | some nm =>
    match lookupKey logging_conf nm with
    | none => return logging_conf
    | some (CVal.dict d) => return updateDict logging_conf d
    | some _ => Except.error "dictionary update sequence: ValueError"

/- ### setup_for_worker (src/cfme/utils/log.py lines 455-464, 502-513) -/

/-- A `logging.FileHandler`'s state: its target filename and whether its
stream is currently open. -/
structure FHandler where
  baseFilename : String
  isOpen : Bool
deriving DecidableEq

/-- The handler state `setup_for_worker` operates on.  `h0` is the single
`FileHandler` created for the `cfme` logger and shared with the `wrapanapi`
logger (`setup_logger(logging.getLogger('wrapanapi'), cfme_file_handler)`);
`h1` is the `py.warnings` logger's own `FileHandler`.  `msgTag` is the
module-level `PrefixAddingLoggerFilter`'s stored message tag. -/
structure WorkerState where
  h0 : FHandler
  h1 : FHandler
  msgTag : Option String
deriving DecidableEq

/-- The first `FileHandler` in a logger's handler list, by logger name:
`cfme` and `wrapanapi` resolve to the shared handler `0`,
`py.warnings` to handler `1`. -/
def fileHandlerId (nm : String) : Option Nat :=
  if nm = "cfme" then some 0
  else if nm = "wrapanapi" then some 0
  else if nm = "py.warnings" then some 1
  else none

def getHandler (st : WorkerState) (i : Nat) : FHandler :=
  if i = 0 then st.h0 else st.h1

def setHandler (st : WorkerState) (i : Nat) (h : FHandler) : WorkerState :=
  if i = 0 then { st with h0 := h } else { st with h1 := h }

/-- `os.path.split`: split off the component after the last slash; the head
keeps no trailing slash unless it is the root. -/
def splitPath (p : String) : String × String :=
  let cs := p.data
  let nameRev := cs.reverse.takeWhile (fun c => c != '/')
  let nm := nameRev.reverse
  let head := cs.take (cs.length - nm.length)
  let stripped := (head.reverse.dropWhile (fun c => c == '/')).reverse
  (⟨if stripped = [] then head else stripped⟩, ⟨nm⟩)

/-- `os.path.join` for a head produced by `splitPath` and a relative name. -/
def joinPath (b nm : String) : String :=
  if b = "" then nm
  else if b.data.getLast? = some '/' then b ++ nm
  else b ++ "/" ++ nm

/-- The fixed logger names `setup_for_worker` iterates over. -/
def workerLoggers : List String := ["cfme", "py.warnings", "wrapanapi"]

/-- `setup_for_worker`: for each logger name in order, close its first
`FileHandler`, point the module-level message tag at the worker, rename the
handler's target file to `worker-name`, and emit a debug record (which
reopens the file at the new name). -/
def setup_for_worker (workername : String) (st : WorkerState) : WorkerState :=
  workerLoggers.foldl
    (fun st nm =>
      match fileHandlerId nm with
      | none => st
      | some i =>
        let h := getHandler st i
        let hClosed : FHandler := { h with isOpen := false }
        let parts := splitPath hClosed.baseFilename
        let st1 := { setHandler st i hClosed with
                       msgTag := some ("(" ++ workername ++ ")") }
        let hRenamed : FHandler :=
          { hClosed with
              baseFilename := joinPath parts.1 (workername ++ "-" ++ parts.2) }
        let st2 := setHandler st1 i hRenamed
        setHandler st2 i { hRenamed with isOpen := true })
    st

/-- The handler layout after module import: `cfme.log` shared by `cfme` and
`wrapanapi`, `py.warnings.log` for the warnings bridge, no message tag. -/
def initialWorkerState : WorkerState :=
  { h0 := { baseFilename := "/logs/cfme.log", isOpen := true },
    h1 := { baseFilename := "/logs/py.warnings.log", isOpen := true },
    msgTag := none }

/- ### Helper lemmas -/

theorem lookupEv_setEv_same (d : List (String × Int)) (k : String) (v : Int) :
    lookupEv (setEv d k v) k = some v := by
  induction d with
  | nil => simp [setEv, lookupEv]
  | cons kv rest ih =>
    obtain ⟨k1, v1⟩ := kv
    by_cases h : k1 = k <;> simp [setEv, lookupEv, h, ih]

theorem lookupEv_removeEv (d : List (String × Int)) (k : String) :
    lookupEv (removeEv d k) k = none := by
  induction d with
  | nil => simp [removeEv, lookupEv]
  | cons kv rest ih =>
    obtain ⟨k1, v1⟩ := kv
    by_cases h : k1 = k <;>
      simp [removeEv, List.filter, h, lookupEv] <;>
      simpa [removeEv] using ih

theorem lookupKey_setKey_same (d : List (String × CVal)) (k : String) (v : CVal) :
    lookupKey (setKey d k v) k = some v := by
  induction d with
  | nil => simp [setKey, lookupKey]
  | cons kv rest ih =>
    obtain ⟨k1, v1⟩ := kv
    by_cases h : k1 = k <;> simp [setKey, lookupKey, h, ih]

theorem lookupKey_setKey_other (d : List (String × CVal)) (k k1 : String) (v : CVal)
    (hne : k1 ≠ k) : lookupKey (setKey d k v) k1 = lookupKey d k1 := by
  have hk : ¬k = k1 := fun h => hne h.symm
  induction d with
  | nil => simp [setKey, lookupKey, hk]
  | cons kv rest ih =>
    obtain ⟨k2, v2⟩ := kv
    by_cases h : k2 = k
    · subst h
      simp [setKey, lookupKey, hk]
    · by_cases h2 : k2 = k1 <;> simp [setKey, lookupKey, h, h2, ih, hne]

theorem lookupKey_updateDict (patch : List (String × CVal)) :
    ∀ (base : List (String × CVal)) (k : String),
      lookupKey (updateDict base patch) k =
        (match lookupLast patch k with
         | some v => some v
         | none => lookupKey base k) := by
  induction patch with
  | nil => intro base k; simp [updateDict, lookupLast]
  | cons kv rest ih =>
    intro base k
    obtain ⟨k1, v1⟩ := kv
    have hstep : updateDict base ((k1, v1) :: rest) = updateDict (setKey base k1 v1) rest := rfl
    rw [hstep, ih (setKey base k1 v1) k]
    cases hrest : lookupLast rest k with
    | some w => simp [lookupLast, hrest]
    | none =>
      by_cases hk : k1 = k
      · subst hk
        simp [lookupLast, hrest, lookupKey_setKey_same]
      · simp [lookupLast, hrest, hk,
          lookupKey_setKey_other base k1 k v1 (fun h => hk h.symm)]

theorem perfStart_tracks (st : PerfState) (now : Int) (nm : String) :
    lookupEv (perfStart st now nm).tracking_events nm = some now := by
  unfold perfStart
  by_cases h : (lookupEv st.tracking_events nm).isSome <;>
    simp [h, lookupEv_setEv_same]

theorem dedupFilter_subset (seen : List String) (r : WRecord) (b : Bool)
    (s1 : List String) (h : dedupFilter seen r = some (b, s1)) :
    ∀ m ∈ seen, m ∈ s1 := by
  obtain ⟨args⟩ := r
  cases args with
  | nil => simp [dedupFilter] at h
  | cons a t =>
    by_cases ha : a = ""
    · simp [dedupFilter, ha] at h
    · by_cases hm : normalizeWarning a ∈ seen
      · simp [dedupFilter, ha, hm] at h
        obtain ⟨-, rfl⟩ := h
        intro m hmem; exact hmem
      · simp [dedupFilter, ha, hm] at h
        obtain ⟨-, rfl⟩ := h
        intro m hmem; exact List.mem_cons_of_mem _ hmem

theorem dedupFilter_step (seen : List String) (a : String) (t : List String)
    (ha : a ≠ "") :
    ∃ b s1, dedupFilter seen ⟨a :: t⟩ = some (b, s1) ∧ normalizeWarning a ∈ s1 := by
  by_cases hm : normalizeWarning a ∈ seen
  · exact ⟨false, seen, by simp [dedupFilter, ha, hm], hm⟩
  · exact ⟨true, normalizeWarning a :: seen, by simp [dedupFilter, ha, hm],
      List.mem_cons_self _ _⟩

theorem dedupFilter_drop (seen : List String) (a : String) (t : List String)
    (ha : a ≠ "") (hm : normalizeWarning a ∈ seen) :
    dedupFilter seen ⟨a :: t⟩ = some (false, seen) := by
  simp [dedupFilter, ha, hm]

theorem runFlags_mono (m : String) :
    ∀ (rs : List WRecord) (seen : List String), m ∈ seen → m ∈ (runFlags seen rs).2 := by
  intro rs
  induction rs with
  | nil => intro seen hm; simpa [runFlags] using hm
  | cons r rest ih =>
    intro seen hm
    cases hd : dedupFilter seen r with
    | none => simpa [runFlags, hd] using ih seen hm
    | some p =>
      obtain ⟨b, s1⟩ := p
      simpa [runFlags, hd] using ih s1 (dedupFilter_subset seen r b s1 hd m hm)

theorem runFlags_append (xs ys : List WRecord) :
    ∀ seen : List String,
      runFlags seen (xs ++ ys) =
        ((runFlags seen xs).1 ++ (runFlags (runFlags seen xs).2 ys).1,
         (runFlags (runFlags seen xs).2 ys).2) := by
  induction xs with
  | nil => intro seen; simp [runFlags]
  | cons r rest ih =>
    intro seen
    cases hd : dedupFilter seen r with
    | none => simp [runFlags, hd, ih seen]
    | some p =>
      obtain ⟨b, s1⟩ := p
      simp [runFlags, hd, ih s1]

/- ### Claim theorems -/

/-- C1: the source-location suffix rendered for a record is the relativised
call-site `pathname` and `lineno` regardless of the `source_file` and
`source_lineno` override extras — the filter and the hard-coded format never
consult the overrides, although the module documentation says they do. -/
theorem C1_source_override_ignored :
    (∀ (sf : Option String) (sl : Option Nat),
      renderedSuffix "/home/user/cfme_tests"
        { pathname := "/home/user/cfme_tests/cfme/foo.py", lineno := 3,
          source_file := sf, source_lineno := sl, msg := "m" } =
        "(cfme/foo.py:3)") ∧
    renderedSuffix "/home/user/cfme_tests"
      { pathname := "/home/user/cfme_tests/cfme/foo.py", lineno := 3,
        source_file := some "somefilename.py", source_lineno := some 7, msg := "m" } ≠
      "(somefilename.py:7)" ∧
    renderedSuffix "/home/user/cfme_tests"
      { pathname := "/home/user/cfme_tests/cfme/foo.py", lineno := 3,
        source_file := some "somefilename.py", source_lineno := none, msg := "m" } ≠
      "(somefilename.py)" := by
  refine ⟨fun sf sl => ?_, by decide, by decide⟩
  simp only [renderedSuffix, relpathFilter, renderSourceSuffix]
  decide

/-- C2: the handler built by `make_file_handler` appends every record and
never rotates or produces backups, for every configuration; at the concrete
configuration `max_logfile_size = 10`, `max_logfile_backups = 2` and eight
six-character records (seven threshold crossings), the code's handler keeps
zero backups while the rotating handler the claim describes would keep two. -/
theorem C2_no_rotation :
    (∀ (size n : Nat) (st : FileSinkState) (msg : String),
      (fileHandlerEmit size n st msg).backups = st.backups ∧
      (fileHandlerEmit size n st msg).contents = st.contents ++ [msg]) ∧
    ((List.replicate 8 "abcdef").foldl (fileHandlerEmit 10 2) ⟨[], []⟩).backups.length = 0 ∧
    ((List.replicate 8 "abcdef").foldl (rotatingEmit 10 2) ⟨[], []⟩).backups.length = 2 := by
  exact ⟨fun size n st msg => ⟨rfl, rfl⟩, by decide, by decide⟩

/-- C3: the deduplication filter drops a record whose normalised first
argument was already seen and leaves the set unchanged; it passes a record
with an unseen normalised body and adds that body to the set; a body in the
set stays in the set for the rest of the stream; and a record arriving after
one with the same normalised body is never delivered. -/
theorem C3_warnings_dedup :
    (∀ (seen : List String) (a : String) (t : List String), a ≠ "" →
      normalizeWarning a ∈ seen →
      dedupFilter seen ⟨a :: t⟩ = some (false, seen)) ∧
    (∀ (seen : List String) (a : String) (t : List String), a ≠ "" →
      normalizeWarning a ∉ seen →
      dedupFilter seen ⟨a :: t⟩ = some (true, normalizeWarning a :: seen)) ∧
    (∀ (seen : List String) (rs : List WRecord) (m : String),
      m ∈ seen → m ∈ (runFlags seen rs).2) ∧
    (∀ (seen : List String) (pre mid post : List WRecord) (r1 r2 : WRecord)
      (a1 : String) (t1 : List String) (a2 : String) (t2 : List String),
      r1.args = a1 :: t1 → a1 ≠ "" → r2.args = a2 :: t2 → a2 ≠ "" →
      normalizeWarning a1 = normalizeWarning a2 →
      ((runFlags ((runFlags seen (pre ++ r1 :: mid)).2) (r2 :: post)).1).head? =
        some false) := by
  refine ⟨fun seen a t ha hm => dedupFilter_drop seen a t ha hm,
          fun seen a t ha hm => by simp [dedupFilter, ha, hm],
          fun seen rs m hm => runFlags_mono m rs seen hm, ?_⟩
  intro seen pre mid post r1 r2 a1 t1 a2 t2 hr1 ha1 hr2 ha2 heq
  obtain ⟨args1⟩ := r1
  simp only at hr1
  subst hr1
  obtain ⟨b, s1, hd, hmem⟩ := dedupFilter_step (runFlags seen pre).2 a1 t1 ha1
  have hseen2 : normalizeWarning a1 ∈ (runFlags seen (pre ++ ⟨a1 :: t1⟩ :: mid)).2 := by
    rw [runFlags_append pre (⟨a1 :: t1⟩ :: mid) seen]
    simp only [runFlags, hd]
    exact runFlags_mono _ mid s1 hmem
  obtain ⟨args2⟩ := r2
  simp only at hr2
  subst hr2
  rw [heq] at hseen2
  simp [runFlags, dedupFilter_drop _ a2 t2 ha2 hseen2]

/-- C3 witness: on an empty seen-set the first warning is delivered and its
normalised body recorded; a later warning with the same normalised body is
dropped. -/
theorem C3_warnings_dedup_witness :
    dedupFilter ["foo"] ⟨["DeprecationWarning: foo"]⟩ = some (false, ["foo"]) ∧
    dedupFilter [] ⟨["DeprecationWarning: foo", "x"]⟩ =
      some (true, [normalizeWarning "DeprecationWarning: foo"]) ∧
    "foo" ∈ (runFlags ["foo"] [⟨["UserWarning: bar"]⟩]).2 ∧
    ((runFlags ((runFlags [] ([] ++ (⟨["DeprecationWarning: foo", "x"]⟩ : WRecord) :: [])).2)
        ((⟨["UserWarning: foo"]⟩ : WRecord) :: [])).1).head? = some false := by
  have h := C3_warnings_dedup
  exact ⟨h.1 ["foo"] "DeprecationWarning: foo" [] (by decide) (by decide),
         h.2.1 [] "DeprecationWarning: foo" ["x"] (by decide) (by decide),
         h.2.2.1 ["foo"] [⟨["UserWarning: bar"]⟩] "foo" (by decide),
         h.2.2.2 [] [] [] [] ⟨["DeprecationWarning: foo", "x"]⟩ ⟨["UserWarning: foo"]⟩
           "DeprecationWarning: foo" ["x"] "UserWarning: foo" [] rfl (by decide) rfl
           (by decide) (by decide)⟩

/-- C4 counterexample: for the logger name `level`, with a loaded but empty
global configuration, `_load_conf` does not resolve to the overlay of the
defaults (as the claim requires for every logger name) — it fails, because
the name collides with the `level` key of the merged configuration and
`dict.update` is applied to the string stored there. -/
theorem C4_load_conf_counterexample :
    _load_conf (some []) (some "level") =
      Except.error "dictionary update sequence: ValueError" := rfl

/-- C4 (amended): for every logger name whose entry in the merged
configuration is absent or is itself a mapping, the resolved configuration is
the hard-coded default overlaid by the global `logging` section and then by
the nested section keyed by the logger name, later overlays winning on key
conflicts; with no loaded configuration the defaults are used without
failing; a logger name whose merged entry is a non-mapping value (such as
`level`) makes resolution fail instead. -/
theorem C4_load_conf_overlay :
    (∀ nm : String, lookupKey _default_conf nm = none →
      _load_conf none (some nm) = Except.ok _default_conf) ∧
    (∀ (env : Option (List (String × CVal))) (yaml : List (String × CVal)) (nm : String),
      getLoggingSection env = Except.ok yaml →
      (lookupKey (updateDict _default_conf yaml) nm = none →
        _load_conf env (some nm) = Except.ok (updateDict _default_conf yaml)) ∧
      (∀ d : List (String × CVal),
        lookupKey (updateDict _default_conf yaml) nm = some (CVal.dict d) →
        _load_conf env (some nm) =
          Except.ok (updateDict (updateDict _default_conf yaml) d))) ∧
    (∀ (base patch : List (String × CVal)) (k : String),
      lookupKey (updateDict base patch) k =
        (match lookupLast patch k with
         | some v => some v
         | none => lookupKey base k)) ∧
    (∀ (env : Option (List (String × CVal))) (yaml : List (String × CVal))
      (nm s1 : String),
      getLoggingSection env = Except.ok yaml →
      lookupKey (updateDict _default_conf yaml) nm = some (CVal.str s1) →
      _load_conf env (some nm) =
        Except.error "dictionary update sequence: ValueError") := by
  refine ⟨?_, ?_, ?_, ?_⟩
  · intro nm h
    have hnone : getLoggingSection none = Except.ok [] := rfl
    have hupd : updateDict _default_conf [] = _default_conf := rfl
    simp [_load_conf, hnone, Bind.bind, Except.bind, hupd, h, Pure.pure, Except.pure]
  · intro env yaml nm h
    constructor
    · intro h2
      simp [_load_conf, h, h2, Bind.bind, Except.bind, Pure.pure, Except.pure]
    · intro d h2
      simp [_load_conf, h, h2, Bind.bind, Except.bind, Pure.pure, Except.pure]
  · intro base patch k
    exact lookupKey_updateDict patch base k
  · intro env yaml nm s1 h h2
    simp [_load_conf, h, h2, Bind.bind, Except.bind, Pure.pure, Except.pure]

/-- C4 witness: concrete instances — `cfme` with no loaded configuration
resolves to the defaults; with a `logging` section setting the level and a
nested `cfme` section, the nested value wins. -/
theorem C4_load_conf_witness :
    _load_conf none (some "cfme") = Except.ok _default_conf ∧
    _load_conf
      (some [("logging",
        CVal.dict [("level", CVal.str "DEBUG"),
                   ("cfme", CVal.dict [("level", CVal.str "WARNING")])])])
      (some "cfme") =
      Except.ok
        (updateDict
          (updateDict _default_conf
            [("level", CVal.str "DEBUG"),
             ("cfme", CVal.dict [("level", CVal.str "WARNING")])])
          [("level", CVal.str "WARNING")]) ∧
    lookupKey (updateDict [("level", CVal.str "INFO")] [("level", CVal.str "DEBUG")])
      "level" = some (CVal.str "DEBUG") ∧
    _load_conf (some [("logging", CVal.dict [])]) (some "level") =
      Except.error "dictionary update sequence: ValueError" := by
  have h := C4_load_conf_overlay
  refine ⟨h.1 "cfme" rfl, ?_, ?_, ?_⟩
  · exact ((h.2.1
      (some [("logging",
        CVal.dict [("level", CVal.str "DEBUG"),
                   ("cfme", CVal.dict [("level", CVal.str "WARNING")])])])
      [("level", CVal.str "DEBUG"),
       ("cfme", CVal.dict [("level", CVal.str "WARNING")])]
      "cfme" rfl).2 [("level", CVal.str "WARNING")] rfl)
  · exact h.2.2.1 [("level", CVal.str "INFO")] [("level", CVal.str "DEBUG")] "level"
  · exact h.2.2.2 (some [("logging", CVal.dict [])]) [] "level" "INFO" rfl rfl

/-- C5: stopping a tracked event removes it from the tracking map, logs the
elapsed time at info severity and returns it (non-negative when the clock has
not gone backwards); stopping an untracked event logs an error and returns
`none`, leaving the tracking map unchanged. -/
theorem C5_perf_stop (st : PerfState) (now : Int) (nm : String) :
    (∀ started : Int, lookupEv st.tracking_events nm = some started →
      (perfStop st now nm).1 = some (now - started) ∧
      lookupEv (perfStop st now nm).2.tracking_events nm = none ∧
      (perfStop st now nm).2.log = st.log ++
        [(Level.info, "\"" ++ nm ++ "\" event took " ++
          toString (now - started) ++ " seconds")] ∧
      (started ≤ now → ∀ v : Int, (perfStop st now nm).1 = some v → 0 ≤ v)) ∧
    (lookupEv st.tracking_events nm = none →
      (perfStop st now nm).1 = none ∧
      (perfStop st now nm).2.tracking_events = st.tracking_events ∧
      (perfStop st now nm).2.log = st.log ++
        [(Level.error, "\"" ++ nm ++ "\" not being tracked, call .start first")]) := by
  constructor
  · intro started h
    refine ⟨by simp [perfStop, h], by simp [perfStop, h, lookupEv_removeEv],
            by simp [perfStop, h], ?_⟩
    intro hle v hv
    simp [perfStop, h] at hv
    omega
  · intro h
    exact ⟨by simp [perfStop, h], by simp [perfStop, h], by simp [perfStop, h]⟩

/-- C5 witness: stopping the tracked event `build` at time 7 (started at 2)
returns 5 ≥ 0 and removes it; stopping the never-started `deploy` returns
`none` with the map unchanged. -/
theorem C5_perf_stop_witness :
    (perfStop ⟨[("build", 2)], []⟩ 7 "build").1 = some (7 - 2) ∧
    lookupEv (perfStop ⟨[("build", 2)], []⟩ 7 "build").2.tracking_events "build" = none ∧
    (0 : Int) ≤ 7 - 2 ∧
    (perfStop ⟨[("build", 2)], []⟩ 7 "deploy").1 = none ∧
    (perfStop ⟨[("build", 2)], []⟩ 7 "deploy").2.tracking_events = [("build", 2)] := by
  have h1 := (C5_perf_stop ⟨[("build", 2)], []⟩ 7 "build").1 2 (by decide)
  have h2 := (C5_perf_stop ⟨[("build", 2)], []⟩ 7 "deploy").2 (by decide)
  exact ⟨h1.1, h1.2.1, h1.2.2.2 (by decide) (7 - 2) h1.1, h2.1, h2.2.1⟩

/-- C6: starting an already-tracked event logs a warning, starting an
untracked one logs a debug message; in both cases the event is afterwards
tracked with the current timestamp, so a second start followed by a stop
measures time from the second start. -/
theorem C6_perf_start (st : PerfState) (now : Int) (nm : String) :
    ((lookupEv st.tracking_events nm).isSome = true →
      (perfStart st now nm).log = st.log ++
        [(Level.warning, "\"" ++ nm ++ "\" event already started, resetting start time")]) ∧
    ((lookupEv st.tracking_events nm).isSome = false →
      (perfStart st now nm).log = st.log ++
        [(Level.debug, "\"" ++ nm ++ "\" event tracking started")]) ∧
    lookupEv (perfStart st now nm).tracking_events nm = some now ∧
    (∀ t1 t2 t3 : Int,
      (perfStop (perfStart (perfStart st t1 nm) t2 nm) t3 nm).1 = some (t3 - t2)) := by
  refine ⟨fun h => by simp [perfStart, h], fun h => by simp [perfStart, h],
          perfStart_tracks st now nm, ?_⟩
  intro t1 t2 t3
  simp [perfStop, perfStart_tracks (perfStart st t1 nm) t2 nm]

/-- C6 witness: starting `build` twice (at 1 then at 4) and stopping at 9
yields 5 seconds, measured from the second start; the tracked timestamp after
the second start is 4. -/
theorem C6_perf_start_witness :
    (perfStart ⟨[("build", 1)], []⟩ 4 "build").log =
      [] ++ [(Level.warning, "\"" ++ "build" ++ "\" event already started, resetting start time")] ∧
    (perfStart ⟨[], []⟩ 4 "build").log =
      [] ++ [(Level.debug, "\"" ++ "build" ++ "\" event tracking started")] ∧
    lookupEv (perfStart ⟨[], []⟩ 4 "build").tracking_events "build" = some 4 ∧
    (perfStop (perfStart (perfStart ⟨[], []⟩ 1 "build") 4 "build") 9 "build").1 =
      some (9 - 4) := by
  exact ⟨(C6_perf_start ⟨[("build", 1)], []⟩ 4 "build").1 (by decide),
         (C6_perf_start ⟨[], []⟩ 4 "build").2.1 (by decide),
         (C6_perf_start ⟨[], []⟩ 4 "build").2.2.1,
         (C6_perf_start ⟨[], []⟩ 0 "build").2.2.2 1 4 9⟩

/-- C7: when the TRACE level is disabled for a logger, the `trace` method of
the logger and of the adapter emits nothing — for every formatting function,
so no formatting of the message arguments can have occurred — and the TRACE
level is strictly below DEBUG. -/
theorem C7_trace_disabled (lg : SimpleLogger) (nm msg : String)
    (fmt : String → List String → String) (args : List String)
    (h : isEnabledFor lg TRACE = false) :
    traceEmit lg fmt msg args = [] ∧
    adapterTrace nm lg fmt msg args = [] ∧
    TRACE < DEBUG := by
  refine ⟨?_, ?_, by decide⟩ <;> simp [traceEmit, adapterTrace, h]

/-- C7 witness: a logger at effective level INFO (20) has TRACE disabled, and
its `trace` calls emit nothing. -/
theorem C7_trace_disabled_witness :
    traceEmit ⟨20⟩ (fun m _ => m) "boom" [] = [] ∧
    adapterTrace "sub" ⟨20⟩ (fun m _ => m) "boom" [] = [] ∧
    TRACE < DEBUG :=
  C7_trace_disabled ⟨20⟩ "sub" "boom" (fun m _ => m) [] (by decide)

/-- C8: for a nonempty traceback the exception hook logs the exception type
name at error severity, then the formatted traceback text at error severity
with the source override set to the last frame's file and line, then calls
the previously installed hook with the same arguments — it never suppresses
the exception. -/
theorem C8_excepthook (typeName excValue : String) (tb : List Frame)
    (fmtFrame : Frame → String) (lastFrame : Frame)
    (h : tb.getLast? = some lastFrame) :
    _custom_excepthook typeName excValue tb fmtFrame =
      some [HookAction.logError ("Unhandled " ++ typeName),
            HookAction.logErrorWithSource (pyStrip (String.join (tb.map fmtFrame)))
              lastFrame.filename lastFrame.lineno,
            HookAction.originalHook typeName excValue tb] := by
  unfold _custom_excepthook
  rw [h]

/-- C8 witness: a one-frame traceback for a `ValueError`. -/
theorem C8_excepthook_witness :
    _custom_excepthook "ValueError" "boom" [⟨"f.py", 3, "main"⟩]
      (fun fr => "  File " ++ fr.filename ++ " line " ++ toString fr.lineno ++ " ") =
      some [HookAction.logError "Unhandled ValueError",
            HookAction.logErrorWithSource "File f.py line 3" "f.py" 3,
            HookAction.originalHook "ValueError" "boom" [⟨"f.py", 3, "main"⟩]] := by
  have h := C8_excepthook "ValueError" "boom" [⟨"f.py", 3, "main"⟩]
    (fun fr => "  File " ++ fr.filename ++ " line " ++ toString fr.lineno ++ " ")
    ⟨"f.py", 3, "main"⟩ rfl
  rw [h]
  decide

/-- C9: one invocation of the worker setup updates the message tag and closes
and renames the handlers, but the handler shared by the `cfme` and
`wrapanapi` loggers receives the worker identifier twice (the loop renames it
once per logger name), ending at `w0-w0-cfme.log` rather than the single
prefix the claim requires; the `py.warnings` handler gets a single prefix. -/
theorem C9_worker_rename :
    (setup_for_worker "w0" initialWorkerState).msgTag = some "(w0)" ∧
    (setup_for_worker "w0" initialWorkerState).h1.baseFilename =
      "/logs/w0-py.warnings.log" ∧
    (setup_for_worker "w0" initialWorkerState).h0.baseFilename =
      "/logs/w0-w0-cfme.log" ∧
    (setup_for_worker "w0" initialWorkerState).h0.baseFilename ≠
      "/logs/w0-cfme.log" := by
  exact ⟨rfl, rfl, rfl, by decide⟩

/-- C10: a message of at most `MARKER_LEN - 2` characters is surrounded by
one space on each side and centred in a `MARKER_LEN`-character field of mark
characters (extra mark on the right); a longer message is returned
unchanged. -/
theorem C10_format_marker (s : String) (mark : Char) :
    (s.length ≤ MARKER_LEN - 2 →
      (format_marker s mark).length = MARKER_LEN ∧
      ∃ l r : Nat,
        format_marker s mark =
          ⟨List.replicate l mark⟩ ++ " " ++ s ++ " " ++ ⟨List.replicate r mark⟩ ∧
        l = (MARKER_LEN - 2 - s.length) / 2 ∧
        l + r = MARKER_LEN - 2 - s.length) ∧
    (MARKER_LEN - 2 < s.length → format_marker s mark = s) := by
  have hM : MARKER_LEN = 80 := rfl
  have hone : (" " : String).length = 1 := rfl
  have hplen : (" " ++ s ++ " ").length = s.length + 2 := by
    rw [String.length_append, String.length_append, hone]
    omega
  constructor
  · intro hle
    have hfm : format_marker s mark = pyCenter (" " ++ s ++ " ") mark MARKER_LEN := by
      unfold format_marker
      rw [if_pos hle]
    have hfill : MARKER_LEN - (" " ++ s ++ " ").length = MARKER_LEN - 2 - s.length := by
      rw [hplen]; omega
    have hshape : format_marker s mark =
        ⟨List.replicate ((MARKER_LEN - 2 - s.length) / 2) mark⟩ ++ " " ++ s ++ " " ++
        ⟨List.replicate ((MARKER_LEN - 2 - s.length) -
          (MARKER_LEN - 2 - s.length) / 2) mark⟩ := by
      rw [hfm]
      unfold pyCenter
      rw [hfill]
      simp [String.append_assoc]
    refine ⟨?_, (MARKER_LEN - 2 - s.length) / 2,
      (MARKER_LEN - 2 - s.length) - (MARKER_LEN - 2 - s.length) / 2, hshape, rfl, ?_⟩
    · rw [hshape]
      simp only [String.length_append, hone]
      have hmk : ∀ (n : Nat), (String.mk (List.replicate n mark)).length = n := by
        intro n; simp [String.length]
      rw [hmk, hmk]
      rw [hM] at hle ⊢
      omega
    · rw [hM] at hle ⊢
      omega
  · intro hgt
    unfold format_marker
    rw [if_neg (by omega)]

/-- C10 witness: a five-character message yields an 80-character marker of
the required shape; a 79-character message is returned unchanged. -/
theorem C10_format_marker_witness :
    (format_marker "hello" '-').length = MARKER_LEN ∧
    format_marker
      "0123456789012345678901234567890123456789012345678901234567890123456789012345678"
      '-' =
      "0123456789012345678901234567890123456789012345678901234567890123456789012345678" := by
  exact ⟨((C10_format_marker "hello" '-').1 (by decide)).1,
         (C10_format_marker _ '-').2 (by decide)⟩

end CfmeLog
